import Mathlib

/-!
Shallow embedding of the message-ingestion core of the unifiedinbox
repository, together with theorems settling the frozen claims about it.

The embedding follows src/services/messageService.js (class MessageService)
and the webhook route handlers of src/routes (the POST /telegram handler and
its helpers). JavaScript objects become Lean structures; a key that a source
object literal never assigns (and so reads back as undefined) is modelled as
an Option field holding none; the in-memory JS Map stores are modelled as
insertion-ordered association lists, matching the iteration order guarantees
of Map and of Array.from(map.values()).

The awaited call aiService.categorizeMessage is an external, fallible,
possibly nondeterministic service (keyword NLP plus an optional OpenAI call);
its outcome is therefore a parameter of createMessage: some analysis for a
successful call, none when the call throws (the catch in createMessage maps a
throw to a null analysis) or when the text is empty (the call is skipped).
Likewise new Date() is passed in as the parameter now, and the socket emit of
the webhook handler is a Boolean parameter telling whether the emit throws.
-/

namespace UnifiedInbox

/-- Attachment objects, passed through MessageService opaquely; the fields
are the ones the telegram webhook handler constructs (type, url, optional
filename, platform tag). -/
structure Attachment where
  type : String
  url : String
  filename : Option String := none
  platform : Option String := none
  deriving DecidableEq

/-- Metadata object attached to a message; the fields are the union of the
keys the embedded telegram webhook handler writes. An empty object literal
has every field none. -/
structure Metadata where
  chatType : Option String := none
  isEdited : Option Bool := none
  hasMedia : Option Bool := none
  deriving DecidableEq

/-- Result object of aiService.categorizeMessage as consumed by
createMessage (category, confidence, priority, sentiment, keywords,
suggestedReplies, aiInsights); every field is optional because createMessage
reads each with optional chaining and a falsy default. Confidence is kept as
a Nat stand-in for the numeric score, which createMessage only copies. -/
structure AIAnalysis where
  category : Option String := none
  confidence : Option Nat := none
  priority : Option String := none
  sentiment : Option String := none
  keywords : Option (List String) := none
  suggestedReplies : Option (List String) := none
  aiInsights : Option (List (String × String)) := none
  deriving DecidableEq

/-- Raw messageData payload handed to MessageService.createMessage by the
webhook routes and sendMessage; every field the service reads. Timestamps
are epoch milliseconds. -/
structure MessageData where
  platform : String
  sender : Option String := none
  senderId : Option String := none
  recipient : Option String := none
  recipientId : Option String := none
  text : Option String := none
  subject : Option String := none
  timestamp : Option Nat := none
  type : Option String := none
  attachments : Option (List Attachment) := none
  metadata : Option Metadata := none
  threadId : Option String := none
  conversationId : Option String := none
  platformMessageId : Option String := none
  isIncoming : Option Bool := none
  deriving DecidableEq

/-- Stored unified message, exactly the object literal built at
messageService.js lines 47 to 73. The source literal assigns no
sequenceNumber key at all and no readAt key (markMessageAsRead adds readAt
later); both are therefore Option fields that createMessage sets to none. -/
structure Message where
  id : String
  platform : String
  sender : Option String
  senderId : Option String
  recipient : Option String
  recipientId : Option String
  text : String
  subject : Option String
  timestamp : Nat
  status : String
  type : String
  attachments : List Attachment
  metadata : Metadata
  threadId : Option String
  conversationId : Option String
  platformMessageId : Option String
  isIncoming : Bool
  priority : String
  aiCategory : String
  aiConfidence : Nat
  aiSentiment : String
  aiKeywords : List String
  aiSuggestedReplies : List String
  aiInsights : List (String × String)
  sequenceNumber : Option Nat
  readAt : Option Nat
  deriving DecidableEq

/-- Metadata sub-object of a conversation record
(messageService.js createConversation, lines 271 to 274). -/
structure ConversationMetadata where
  primaryPlatform : String
  hasAttachments : Bool
  deriving DecidableEq

/-- Conversation record, exactly the object literal of createConversation
(messageService.js lines 261 to 275); platforms is a JS Set modelled as an
insertion-ordered duplicate-free list. -/
structure Conversation where
  id : String
  title : String
  participants : List String
  platforms : List String
  messageCount : Nat
  lastMessage : String
  lastMessageTime : Nat
  createdAt : Nat
  updatedAt : Nat
  metadata : ConversationMetadata
  deriving DecidableEq

/-- The mutable fields of the MessageService singleton (constructor, lines
21 to 26): two insertion-ordered maps and two counters. -/
structure ServiceState where
  messages : List (String × Message)
  conversations : List (String × Conversation)
  messageCounter : Nat
  conversationCounter : Nat
  deriving DecidableEq

/-- Fresh MessageService state as built by the constructor. -/
def initialState : ServiceState :=
  { messages := [], conversations := [], messageCounter := 0, conversationCounter := 0 }

deriving instance DecidableEq for Except

/-- Map.get: first binding of the key, if any. -/
def mapGet (l : List (String × α)) (k : String) : Option α :=
  (l.find? (fun p => p.fst == k)).map Prod.snd

/-- Map.set: replace the binding in place when the key exists (JS Map keeps
the original insertion position), else append. -/
def mapSet (l : List (String × α)) (k : String) (v : α) : List (String × α) :=
  match l with
  | [] => [(k, v)]
  | (k2, v2) :: rest => if k2 == k then (k, v) :: rest else (k2, v2) :: mapSet rest k v

/-- JS truthiness test for an optional string: undefined and the empty
string are falsy. -/
def strFalsy : Option String → Bool
  | none => true
  | some s => s == ""

/-- JS expression v OR dflt for an optional string v: the default is taken
when v is undefined or empty. -/
def jsOrStr (v : Option String) (dflt : String) : String :=
  match v with
  | none => dflt
  | some s => if s == "" then dflt else s

/-- MessageService.normalizeMessageData (lines 91 to 125): the per-platform
switch setting type, gmail subject defaulting, and the isIncoming
normalisation (isIncoming strictly-not-equal false), followed by the text,
attachments and metadata defaults. -/
def normalizeMessageData (messageData : MessageData) : MessageData :=
  let normalized := messageData
  let normalized :=
    if messageData.platform == "gmail" then
      { normalized with type := some "email",
                        subject := some (jsOrStr messageData.subject "No Subject"),
                        isIncoming := some (messageData.isIncoming != some false) }
    else if messageData.platform == "telegram" then
      { normalized with type := some "chat",
                        isIncoming := some (messageData.isIncoming != some false) }
    else if messageData.platform == "whatsapp" then
      { normalized with type := some "chat",
                        isIncoming := some (messageData.isIncoming != some false) }
    else if messageData.platform == "instagram" then
      { normalized with type := some "direct_message",
                        isIncoming := some (messageData.isIncoming != some false) }
    else if messageData.platform == "twitter" then
      { normalized with type := some "direct_message",
                        isIncoming := some (messageData.isIncoming != some false) }
    else normalized
  { normalized with
      text := some (normalized.text.getD ""),
      attachments := some (normalized.attachments.getD []),
      metadata := some (normalized.metadata.getD {}) }

/-- MessageService.createConversation (lines 257 to 285): allocate
conv_(counter+1), build the conversation literal from the message, store it.
The JS filter(Boolean) on participants drops undefined and empty ids. -/
def createConversation (message : Message) (s : ServiceState) : String × ServiceState :=
  let conversationCounter := s.conversationCounter + 1
  let conversationId := "conv_" ++ toString conversationCounter
  let conversation : Conversation :=
    { id := conversationId,
      title := jsOrStr message.subject (jsOrStr message.sender "New Conversation"),
      participants := ([message.senderId, message.recipientId].filterMap id).filter (fun p => p != ""),
      platforms := [message.platform],
      messageCount := 1,
      lastMessage := message.text,
      lastMessageTime := message.timestamp,
      createdAt := message.timestamp,
      updatedAt := message.timestamp,
      metadata := { primaryPlatform := message.platform,
                    hasAttachments := message.attachments.length > 0 } }
  (conversationId,
   { s with conversations := mapSet s.conversations conversationId conversation,
            conversationCounter := conversationCounter })

/-- Conversation update block of MessageService.updateConversation (lines
230 to 247): refresh lastMessage, lastMessageTime, bump messageCount, add
the platform to the Set, and push truthy sender and recipient ids not yet
among the participants. -/
def touchConversation (message : Message) (conversation : Conversation) : Conversation :=
  let c :=
    { conversation with
        lastMessage := message.text,
        lastMessageTime := message.timestamp,
        messageCount := conversation.messageCount + 1,
        platforms :=
          if conversation.platforms.contains message.platform then conversation.platforms
          else conversation.platforms ++ [message.platform] }
  let pushParticipant := fun (c : Conversation) (pid : Option String) =>
    match pid with
    | none => c
    | some p =>
        if p == "" then c
        else if c.participants.contains p then c
        else { c with participants := c.participants ++ [p] }
  pushParticipant (pushParticipant c message.senderId) message.recipientId

/-- Lookup-then-update step of updateConversation: when the conversation id
resolves to a stored conversation, rewrite it through touchConversation;
when it does not (a conversationId pointing nowhere), nothing happens. -/
def touchState (message : Message) (conversationId : String) (s : ServiceState) : ServiceState :=
  match mapGet s.conversations conversationId with
  | some conversation =>
      { s with conversations :=
          mapSet s.conversations conversationId (touchConversation message conversation) }
  | none => s

/-- MessageService.updateConversation (lines 220 to 254): when the message
carries no (or an empty, hence falsy) conversationId, create a conversation
and assign its id to the message, then run the update block on the resolved
conversation. Returns the possibly reassigned message, the resolved id, and
the new state; the source mutates message.conversationId through the shared
reference, which the caller models by re-storing the returned message. -/
def updateConversation (message : Message) (s : ServiceState) : Message × String × ServiceState :=
  if strFalsy message.conversationId then
    let r := createConversation message s
    let message2 := { message with conversationId := some r.1 }
    (message2, r.1, touchState message2 r.1 r.2)
  else
    let cid := message.conversationId.getD ""
    (message, cid, touchState message cid s)

/-- MessageService.createMessage (lines 29 to 88). The counter is bumped and
the id allocated first; a null payload then throws inside
normalizeMessageData (reading .platform of null) and the catch rethrows, so
the counter stays consumed. Otherwise the payload is normalized, the AI
categorization outcome is consulted only when the normalized text is
nonempty, the message literal of lines 47 to 73 is built with status unread
and the ingestion clock as its timestamp, stored, and updateConversation is
run; because the map holds the message by reference, the conversationId
assigned there is visible in the stored record, modelled by the second
mapSet of the returned message. -/
def createMessage (now : Nat) (aiOutcome : Option AIAnalysis) (messageData : Option MessageData)
    (s : ServiceState) : ServiceState × Except String Message :=
  let messageCounter := s.messageCounter + 1
  let messageId := "msg_" ++ toString messageCounter
  let s1 := { s with messageCounter := messageCounter }
  match messageData with
  | none => (s1, Except.error "TypeError: cannot read platform of null")
  | some d =>
      let n := normalizeMessageData d
      let aiAnalysis := if n.text.getD "" == "" then none else aiOutcome
      let message : Message :=
        { id := messageId,
          platform := n.platform,
          sender := n.sender,
          senderId := n.senderId,
          recipient := n.recipient,
          recipientId := n.recipientId,
          text := n.text.getD "",
          subject := n.subject,
          timestamp := now,
          status := "unread",
          type := jsOrStr n.type "message",
          attachments := n.attachments.getD [],
          metadata := n.metadata.getD {},
          threadId := n.threadId,
          conversationId := n.conversationId,
          platformMessageId := n.platformMessageId,
          isIncoming := n.isIncoming.getD false,
          priority := jsOrStr (aiAnalysis.bind (fun a => a.priority)) "normal",
          aiCategory := jsOrStr (aiAnalysis.bind (fun a => a.category)) "general",
          aiConfidence := (aiAnalysis.bind (fun a => a.confidence)).getD 0,
          aiSentiment := jsOrStr (aiAnalysis.bind (fun a => a.sentiment)) "neutral",
          aiKeywords := (aiAnalysis.bind (fun a => a.keywords)).getD [],
          aiSuggestedReplies := (aiAnalysis.bind (fun a => a.suggestedReplies)).getD [],
          aiInsights := (aiAnalysis.bind (fun a => a.aiInsights)).getD [],
          sequenceNumber := none,
          readAt := none }
      let s2 := { s1 with messages := mapSet s1.messages messageId message }
      let u := updateConversation message s2
      let s4 := { u.2.2 with messages := mapSet (u.2.2).messages messageId u.1 }
      (s4, Except.ok u.1)

/-- Stable ascending insertion by the stored timestamp: the new element goes
after every element that is less than or equal to it. -/
def insertByTimestamp (m : Message) : List Message → List Message
  | [] => [m]
  | x :: xs => if x.timestamp ≤ m.timestamp then x :: insertByTimestamp m xs else m :: x :: xs

/-- Stable sort by timestamp ascending, modelling the JS stable
Array.prototype.sort with comparator new Date(a.timestamp) minus
new Date(b.timestamp). -/
def sortByTimestamp (l : List Message) : List Message :=
  l.foldl (fun acc m => insertByTimestamp m acc) []

/-- MessageService.getConversationMessages (lines 200 to 217): throw when
the conversation is unknown; otherwise take the stored messages of that
conversation in insertion order, sort them by timestamp ascending, and keep
the last limit entries (slice with a negative index; for the positive limit
the route always passes, that is dropping all but the last limit). -/
def getConversationMessages (conversationId : String) (limit : Nat) (s : ServiceState) :
    Except String (List Message) :=
  match mapGet s.conversations conversationId with
  | none => Except.error "Conversation not found"
  | some _ =>
      let msgs := (s.messages.map Prod.snd).filter (fun m => m.conversationId == some conversationId)
      let sorted := sortByTimestamp msgs
      Except.ok (sorted.drop (sorted.length - limit))

/-- MessageService.markConversationAsRead (lines 437 to 461): throw when the
conversation is unknown; otherwise walk the message map in order and set
status read plus a readAt stamp on every message of the conversation whose
status is unread, counting them. Re-setting an existing key keeps its map
position, so the walk is a positional rewrite. -/
def markConversationAsRead (now : Nat) (conversationId : String) (s : ServiceState) :
    ServiceState × Except String Nat :=
  match mapGet s.conversations conversationId with
  | none => (s, Except.error "Conversation not found")
  | some _ =>
      let step := fun (acc : List (String × Message) × Nat) (entry : String × Message) =>
        if entry.2.conversationId == some conversationId && entry.2.status == "unread" then
          (acc.1 ++ [(entry.1, { entry.2 with status := "read", readAt := some now })], acc.2 + 1)
        else
          (acc.1 ++ [entry], acc.2)
      let r := s.messages.foldl step ([], 0)
      ({ s with messages := r.1 }, Except.ok r.2)

/-- Telegram user object as read by the webhook handler of
src/routes (POST /telegram): id, optional username, first name. -/
structure TgUser where
  id : Nat
  username : Option String := none
  first_name : String
  deriving DecidableEq

/-- Telegram chat object as read by the webhook handler: id, optional
username and title, chat type. -/
structure TgChat where
  id : Nat
  username : Option String := none
  title : Option String := none
  type : String
  deriving DecidableEq

/-- One entry of a Telegram photo array: file id and optional size. -/
structure TgPhotoSize where
  file_id : String
  file_size : Option Nat := none
  deriving DecidableEq

/-- Telegram video object as read by the handler. -/
structure TgVideo where
  file_id : String
  deriving DecidableEq

/-- Telegram document object as read by the handler. -/
structure TgDocument where
  file_id : String
  file_name : Option String := none
  deriving DecidableEq

/-- Telegram message object as read by the POST /telegram handler. The
handler only tests audio and voice for presence (they gate the attachments
array and the hasMedia flag without being pushed), so they are presence
flags here. -/
structure TgMessage where
  message_id : Nat
  from_ : TgUser
  chat : TgChat
  text : Option String := none
  caption : Option String := none
  date : Nat
  photo : Option (List TgPhotoSize) := none
  video : Option TgVideo := none
  document : Option TgDocument := none
  audio : Bool := false
  voice : Bool := false
  deriving DecidableEq

/-- Request body of the telegram webhook: at most one of the four update
kinds is present. -/
structure TelegramUpdate where
  message : Option TgMessage := none
  edited_message : Option TgMessage := none
  channel_post : Option TgMessage := none
  edited_channel_post : Option TgMessage := none
  deriving DecidableEq

/-- HTTP reply of the webhook handler: the status code and, on the success
path that stored a message, the new message id. -/
structure HttpResponse where
  status : Nat
  messageId : Option String := none
  deriving DecidableEq

/-- POST /telegram webhook handler (src/routes, lines 268 to 339). Picks the
first present update kind (message OR edited_message OR channel_post OR
edited_channel_post), answers 200 without touching the store when none is
present, builds the unified messageData literal of lines 279 to 294 plus the
media attachments of lines 297 to 324, stores it through
messageService.createMessage, emits the real-time update, and answers 200
with the new message id. Any throw inside the try block, including a throw
from the emit that runs after the store, is answered with 500. Reading the
file id of the last element of an empty photo array throws before the store
and is likewise answered with 500. -/
def webhookTelegram (now : Nat) (aiOutcome : Option AIAnalysis) (emitOk : Bool)
    (body : TelegramUpdate) (s : ServiceState) : ServiceState × HttpResponse :=
  match body.message <|> body.edited_message <|> body.channel_post <|> body.edited_channel_post with
  | none => (s, { status := 200 })
  | some msg =>
      if msg.photo == some ([] : List TgPhotoSize) then (s, { status := 500 })
      else
        let isEdited := body.edited_message.isSome || body.edited_channel_post.isSome
        let hasMedia := msg.photo.isSome || msg.video.isSome || msg.document.isSome ||
                        msg.audio || msg.voice
        let photoAtt : List Attachment :=
          match msg.photo with
          | some ps =>
              match ps.getLast? with
              | some p => [{ type := "image", url := p.file_id, platform := some "telegram" }]
              | none => []
          | none => []
        let videoAtt : List Attachment :=
          match msg.video with
          | some v => [{ type := "video", url := v.file_id, platform := some "telegram" }]
          | none => []
        let documentAtt : List Attachment :=
          match msg.document with
          | some doc => [{ type := "document", url := doc.file_id, filename := doc.file_name,
                           platform := some "telegram" }]
          | none => []
        let unifiedMessage : MessageData :=
          { platform := "telegram",
            sender := some (jsOrStr msg.from_.username (jsOrStr (some msg.from_.first_name) "Unknown")),
            senderId := some (toString msg.from_.id),
            recipient := some (jsOrStr msg.chat.username (jsOrStr msg.chat.title "Unknown")),
            recipientId := some (toString msg.chat.id),
            text := some (jsOrStr msg.text (jsOrStr msg.caption "")),
            timestamp := some (msg.date * 1000),
            type := some "message",
            platformMessageId := some (toString msg.message_id),
            metadata := some { chatType := some msg.chat.type,
                               isEdited := some isEdited,
                               hasMedia := some hasMedia },
            attachments := if hasMedia then some (photoAtt ++ videoAtt ++ documentAtt) else none }
        let r := createMessage now aiOutcome (some unifiedMessage) s
        match r.2 with
        | Except.ok saved =>
            if emitOk then (r.1, { status := 200, messageId := some saved.id })
            else (r.1, { status := 500 })
        | Except.error _ => (r.1, { status := 500 })

/-! Concrete inputs used by the claim theorems. -/

/-- Telegram webhook body carrying one ordinary text message with the given
native message id and text, as a platform would redeliver it byte for
byte. -/
def tgUpdate (pmid : Nat) (txt : Option String) : TelegramUpdate :=
  { message := some { message_id := pmid,
                      from_ := { id := 42, username := some "alice", first_name := "Alice" },
                      chat := { id := 7, title := some "General", type := "group" },
                      text := txt,
                      date := 1700000000 } }

/-- Plain inbound telegram payload at the service level, carrying the fields
the webhook routes populate (no conversationId, as no route ever sets
one). -/
def demoPayload : MessageData :=
  { platform := "telegram", sender := some "alice", senderId := some "42",
    recipient := some "General", recipientId := some "7", text := some "hello",
    timestamp := some 1700000000000, platformMessageId := some "555" }

/-- Payload whose platform-reported send time is 2000000 ms, handed to the
service at ingestion clock 500. -/
def c3_payloadA : MessageData :=
  { platform := "telegram", sender := some "alice", senderId := some "42",
    text := some "sent second, delivered first", timestamp := some 2000000,
    platformMessageId := some "1" }

/-- Payload whose platform-reported send time is 1000000 ms — earlier than
the one of c3_payloadA — handed to the service later, at ingestion clock
600, into the same conversation. -/
def c3_payloadB : MessageData :=
  { platform := "telegram", sender := some "alice", senderId := some "42",
    text := some "sent first, delivered second", timestamp := some 1000000,
    conversationId := some "conv_1", platformMessageId := some "2" }

/-- State after ingesting c3_payloadA at clock 500 and then c3_payloadB at
clock 600. -/
def c3_state : ServiceState :=
  (createMessage 600 none (some c3_payloadB)
    (createMessage 500 none (some c3_payloadA) initialState).1).1

/-- Payload missing every mandatory field of the claim: no sender identity,
no native message id, no timestamp. -/
def c5_payload : MessageData := { platform := "telegram", text := some "hi" }

/-- Inbound telegram payload for the round-trip claim, with the text and
attachment list left as parameters. -/
def c6_payload (txt : Option String) (atts : List Attachment) : MessageData :=
  { platform := "telegram", sender := some "alice", senderId := some "42",
    recipient := some "bob", recipientId := some "7", text := txt,
    timestamp := some 1700000000000, platformMessageId := some "555",
    attachments := some atts }

/-- Payload whose text would trip the keyword categorizer. -/
def c7_payload : MessageData :=
  { platform := "whatsapp", senderId := some "15551234",
    text := some "URGENT the server is down" }

/-- A categorizer outcome of the shape aiService.categorizeMessage
produces for such a text. -/
def c7_analysis : AIAnalysis :=
  { category := some "urgent", confidence := some 95, priority := some "high",
    sentiment := some "negative", keywords := some ["urgent", "server"],
    suggestedReplies := some ["Escalating now"] }

/-- Message with every categorizer-derived field reset to the value it
takes when no analysis is available; two messages agree on it exactly when
they agree outside the AI output. -/
def stripAi (m : Message) : Message :=
  { m with priority := "normal", aiCategory := "general", aiConfidence := 0,
           aiSentiment := "neutral", aiKeywords := [], aiSuggestedReplies := [],
           aiInsights := [] }

/-- Message with the two run-specific fields id and timestamp masked; two
messages agree on it exactly when they agree on every other field. -/
def maskIdTime (m : Message) : Message := { m with id := "", timestamp := 0 }

/-- Same-bytes payload carrying a conversationId, for the determinism
claim. -/
def c9_payloadConv : MessageData := { demoPayload with conversationId := some "conv_9" }

/-- Store holding conversation conv_1 with one already-read and one unread
message, plus an unread message in conversation conv_2: msg_1 was ingested
and then marked read, msg_2 joined conv_1 later, msg_3 opened conv_2. -/
def c10_state : ServiceState :=
  (createMessage 40 none (some demoPayload)
    ((createMessage 30 none
        (some { demoPayload with platformMessageId := some "556", conversationId := some "conv_1" })
        ((markConversationAsRead 20 "conv_1"
            (createMessage 10 none (some demoPayload) initialState).1).1)).1)).1

/-! General lemmas about the embedded operations, shared by the claim
theorems below. -/

/-- Looking up a key right after setting it yields the stored value. -/
theorem mapGet_mapSet_self (l : List (String × α)) (k : String) (v : α) :
    mapGet (mapSet l k v) k = some v := by
  induction l with
  | nil => simp [mapSet, mapGet, List.find?]
  | cons hd t ih =>
      obtain ⟨k2, v2⟩ := hd
      by_cases hk : k2 == k
      · simp [mapSet, hk, mapGet, List.find?]
      · simp only [mapSet, hk, if_neg, Bool.false_eq_true, not_false_iff, ite_false]
        simpa [mapGet, List.find?, hk] using ih

/-- An entry of the map after a set either was already present or is the
binding just written. -/
theorem mem_mapSet (l : List (String × α)) (k : String) (v : α) (e : String × α) :
    e ∈ mapSet l k v → e ∈ l ∨ e = (k, v) := by
  induction l with
  | nil => intro he; simpa [mapSet] using he
  | cons hd t ih =>
      obtain ⟨k2, v2⟩ := hd
      intro he
      by_cases hk : (k2 == k) = true
      · simp only [mapSet, hk, if_true, List.mem_cons] at he
        rcases he with he | he
        · right; exact he
        · left; exact List.mem_cons_of_mem _ he
      · simp only [mapSet, hk, if_false, Bool.false_eq_true, ite_false, List.mem_cons] at he
        rcases he with he | he
        · left; rw [he]; exact List.mem_cons_self _ _
        · rcases ih he with h1 | h1
          · left; exact List.mem_cons_of_mem _ h1
          · right; exact h1

/-- The message returned by updateConversation is the input message, with
the freshly allocated conversation id written into it exactly when the
incoming conversationId was falsy. -/
theorem updateConversation_fst (m : Message) (s : ServiceState) :
    (updateConversation m s).1 =
      if strFalsy m.conversationId then
        { m with conversationId := some ("conv_" ++ toString (s.conversationCounter + 1)) }
      else m := by
  unfold updateConversation
  split <;> simp_all [createConversation]

/-- updateConversation never touches the sequenceNumber field of the
message it returns. -/
theorem updateConversation_fst_sequenceNumber (m : Message) (s : ServiceState) :
    ((updateConversation m s).1).sequenceNumber = m.sequenceNumber := by
  rw [updateConversation_fst]
  by_cases hc : strFalsy m.conversationId = true
  · rw [if_pos hc]
  · rw [if_neg hc]

/-- updateConversation only rewrites conversations; the message map of the
state it returns is untouched. -/
theorem updateConversation_messages (m : Message) (s : ServiceState) :
    ((updateConversation m s).2.2).messages = s.messages := by
  unfold updateConversation touchState createConversation
  split <;> (dsimp only) <;> split <;> rfl

/-- normalizeMessageData leaves the conversationId of the payload alone. -/
theorem normalize_conversationId (d : MessageData) :
    (normalizeMessageData d).conversationId = d.conversationId := by
  unfold normalizeMessageData
  dsimp only
  split_ifs <;> rfl

/-- normalizeMessageData leaves the platform of the payload alone. -/
theorem normalize_platform (d : MessageData) :
    (normalizeMessageData d).platform = d.platform := by
  unfold normalizeMessageData
  dsimp only
  split_ifs <;> rfl

/-- normalizeMessageData leaves the platformMessageId of the payload
alone. -/
theorem normalize_platformMessageId (d : MessageData) :
    (normalizeMessageData d).platformMessageId = d.platformMessageId := by
  unfold normalizeMessageData
  dsimp only
  split_ifs <;> rfl

/-- updateConversation never touches the id of the message it returns. -/
theorem updateConversation_fst_id (m : Message) (s : ServiceState) :
    ((updateConversation m s).1).id = m.id := by
  rw [updateConversation_fst]
  by_cases hc : strFalsy m.conversationId = true
  · rw [if_pos hc]
  · rw [if_neg hc]

/-- updateConversation never touches the platform of the message it
returns. -/
theorem updateConversation_fst_platform (m : Message) (s : ServiceState) :
    ((updateConversation m s).1).platform = m.platform := by
  rw [updateConversation_fst]
  by_cases hc : strFalsy m.conversationId = true
  · rw [if_pos hc]
  · rw [if_neg hc]

/-- updateConversation never touches the platformMessageId of the message
it returns. -/
theorem updateConversation_fst_platformMessageId (m : Message) (s : ServiceState) :
    ((updateConversation m s).1).platformMessageId = m.platformMessageId := by
  rw [updateConversation_fst]
  by_cases hc : strFalsy m.conversationId = true
  · rw [if_pos hc]
  · rw [if_neg hc]

/-- updateConversation never touches the message id counter of the state it
returns. -/
theorem updateConversation_messageCounter (m : Message) (s : ServiceState) :
    ((updateConversation m s).2.2).messageCounter = s.messageCounter := by
  unfold updateConversation touchState createConversation
  split <;> (dsimp only) <;> split <;> rfl

/-- Rewriting equations for mapSet and mapGet on explicit lists, used to run
the embedded service symbolically inside simp. -/
theorem mapSet_nil (k : String) (v : α) : mapSet ([] : List (String × α)) k v = [(k, v)] := rfl

/-- Cons step of mapSet as a plain conditional rewrite. -/
theorem mapSet_cons (k2 k : String) (v2 v : α) (t : List (String × α)) :
    mapSet ((k2, v2) :: t) k v
      = if k2 == k then (k, v) :: t else (k2, v2) :: mapSet t k v := rfl

/-- Lookup on the empty map. -/
theorem mapGet_nil (k : String) : mapGet ([] : List (String × α)) k = none := rfl

/-- Cons step of mapGet as a plain conditional rewrite. -/
theorem mapGet_cons (k2 k : String) (v : α) (t : List (String × α)) :
    mapGet ((k2, v) :: t) k = if k2 == k then some v else mapGet t k := by
  by_cases h : (k2 == k) = true <;> simp [mapGet, List.find?, h]

/-- Literal evaluations of the id rendering, used to run the embedded
service symbolically inside simp. -/
theorem natToString_one : toString (1 : Nat) = "1" := rfl

/-- Literal evaluation of toString 2. -/
theorem natToString_two : toString (2 : Nat) = "2" := rfl

/-- Literal evaluation of the first conversation id. -/
theorem convAppend_one : "conv_" ++ "1" = "conv_1" := rfl

/-- Literal evaluation of the second conversation id. -/
theorem convAppend_two : "conv_" ++ "2" = "conv_2" := rfl

/-- Literal evaluation of the first message id. -/
theorem msgAppend_one : "msg_" ++ "1" = "msg_1" := rfl

/-- Literal evaluation of the second message id. -/
theorem msgAppend_two : "msg_" ++ "2" = "msg_2" := rfl

/-- Inserting into the empty sorted list. -/
theorem insertByTimestamp_nil (m : Message) : insertByTimestamp m [] = [m] := rfl

/-! Claim C1: deduplication of the (platform, platformMessageId) pair. -/

/-- C1, counterexample: two webhook redeliveries of the identical telegram
payload with platformMessageId 555 both answer 200 with a message id, the
second one a fresh msg_2 rather than a Duplicate naming msg_1, and the
store afterwards holds two messages with the same
(platform, platformMessageId) pair — refuting that at most one
UnifiedMessage record is created per pair. -/
theorem c1_counterexample :
    (webhookTelegram 100 none true (tgUpdate 555 (some "hello")) initialState).2
      = { status := 200, messageId := some "msg_1" } ∧
    (webhookTelegram 200 none true (tgUpdate 555 (some "hello"))
        (webhookTelegram 100 none true (tgUpdate 555 (some "hello")) initialState).1).2
      = { status := 200, messageId := some "msg_2" } ∧
    (((webhookTelegram 200 none true (tgUpdate 555 (some "hello"))
        (webhookTelegram 100 none true (tgUpdate 555 (some "hello")) initialState).1).1.messages.map
          Prod.snd).filter
        (fun m => m.platform == "telegram" && m.platformMessageId == some "555")).length = 2 := by
  decide

/-- C1, amended: the code performs no deduplication. From every state —
including one whose store already holds a message with the same
(platform, platformMessageId) pair, as after a webhook redelivery — a
createMessage call never consults the pair: it accepts the payload,
allocates the next fresh id from the global counter, stores a new record
with the payload platform and platformMessageId under that id, and no
Duplicate outcome exists. Two calls therefore yield two records, as
c1_counterexample shows concretely. -/
theorem c1_amended (now : Nat) (ai : Option AIAnalysis) (d : MessageData) (s : ServiceState) :
    ∃ m, (createMessage now ai (some d) s).2 = Except.ok m ∧
      mapGet ((createMessage now ai (some d) s).1).messages
        ("msg_" ++ toString (s.messageCounter + 1)) = some m ∧
      m.id = "msg_" ++ toString (s.messageCounter + 1) ∧
      m.platform = d.platform ∧
      m.platformMessageId = d.platformMessageId ∧
      ((createMessage now ai (some d) s).1).messageCounter = s.messageCounter + 1 := by
  refine ⟨_, rfl, ?_, ?_, ?_, ?_, ?_⟩
  · simp only [createMessage]
    exact mapGet_mapSet_self _ _ _
  · simp only [createMessage]
    exact (updateConversation_fst_id _ _).trans rfl
  · simp only [createMessage]
    exact (updateConversation_fst_platform _ _).trans (normalize_platform d)
  · simp only [createMessage]
    exact (updateConversation_fst_platformMessageId _ _).trans (normalize_platformMessageId d)
  · simp only [createMessage]
    exact updateConversation_messageCounter _ _

/-! Claim C2: per-conversation sequence numbers. -/

/-- Every message entry the state holds after a createMessage run still has
no sequenceNumber, provided none had one before: the stored literal assigns
none and updateConversation never writes the field. -/
theorem createMessage_assigns_no_sequence_number (now : Nat) (ai : Option AIAnalysis)
    (dIn : Option MessageData) (s : ServiceState)
    (h : ∀ e ∈ s.messages, e.2.sequenceNumber = none) :
    ∀ e ∈ ((createMessage now ai dIn s).1).messages, e.2.sequenceNumber = none := by
  intro e he
  cases dIn with
  | none => exact h e he
  | some d =>
      simp only [createMessage] at he
      rcases mem_mapSet _ _ _ _ he with h1 | h1
      · rw [updateConversation_messages] at h1
        rcases mem_mapSet _ _ _ _ h1 with h2 | h2
        · exact h e h2
        · rw [h2]
      · rw [h1]
        exact (updateConversation_fst_sequenceNumber _ _).trans rfl

/-- C2, counterexample: after one successful ingestion into conv_1, the
sequence numbers carried by the messages of that conversation are the list
holding a single none — not the list holding exactly 1, as the claim of
gapless numbering 1..n with n = 1 accepted message requires. The code
assigns no sequence number at all. -/
theorem c2_counterexample :
    (getConversationMessages "conv_1" 50
        (createMessage 100 none (some demoPayload) initialState).1).map
      (fun l => l.map (fun m => m.sequenceNumber)) = Except.ok [none] ∧
    (Except.ok [none] : Except String (List (Option Nat))) ≠ Except.ok [some 1] := by
  decide

/-- C2, amended: no sequence numbers exist to be assigned, shared or
consumed: every run of createMessage — accepted, duplicate redelivery or
failed alike — leaves every stored message with an absent sequenceNumber,
provided the store held none before. -/
theorem c2_amended (now : Nat) (ai : Option AIAnalysis) (dIn : Option MessageData)
    (s : ServiceState)
    (h : s.messages.all (fun e => e.2.sequenceNumber == none) = true) :
    ((createMessage now ai dIn s).1).messages.all
      (fun e => e.2.sequenceNumber == none) = true := by
  rw [List.all_eq_true] at h ⊢
  intro e he
  have h2 := createMessage_assigns_no_sequence_number now ai dIn s
    (fun e2 he2 => by simpa using h e2 he2) e he
  simpa using h2

/-- C2, witness: the amended statement applied to a concrete ingestion from
the empty initial state. -/
theorem c2_witness :
    initialState.messages.all (fun e => e.2.sequenceNumber == none) = true ∧
    ((createMessage 5 none (some demoPayload) initialState).1).messages.all
      (fun e => e.2.sequenceNumber == none) = true :=
  ⟨by decide, c2_amended 5 none (some demoPayload) initialState (by decide)⟩

/-! Claim C3: display order and timestamps. -/

/-- C3, code divergence at the failing input: every webhook route computes
the platform-reported send time into messageData.timestamp, but
createMessage shadows it with the ingestion wall clock (new Date at line
32) when building the stored literal, so the stored timestamps are 500 and
600 rather than 2000000 and 1000000, and getConversationMessages — whose
sort key is that stored timestamp — displays msg_1 before msg_2 although
msg_2 was reported sent earlier (1000000 before 2000000). Ordering hence
follows the ingestion clock, the platform-reported time is discarded, and
there is no sequence number to break ties. -/
theorem c3_code_bug :
    (getConversationMessages "conv_1" 50 c3_state).map
        (fun l => l.map (fun m => (m.id, m.timestamp)))
      = Except.ok [("msg_1", 500), ("msg_2", 600)] ∧
    c3_payloadA.timestamp = some 2000000 ∧
    c3_payloadB.timestamp = some 1000000 ∧
    ((createMessage 500 none (some c3_payloadA) initialState).2).map
        (fun m => m.timestamp) = Except.ok 500 := by
  decide

/-! Claim C4: all-or-nothing failure handling. -/

/-- C4, counterexample: the only failing ingest run the code can produce (a
null payload, thrown inside normalizeMessageData) does not leave the state
unchanged from before the run: the resulting state differs from the
initial one, because the message id counter was consumed before the
fallible step. -/
theorem c4_counterexample :
    (createMessage 5 none none initialState).1 ≠ initialState ∧
    (createMessage 5 none none initialState).2.isOk = false := by
  decide

/-- C4, amended: a failing createMessage run leaves the message store and
the conversation store untouched, but is not all-or-nothing: the message id
counter has advanced by one, since it is incremented before any fallible
step. The failure surfaces as a thrown error; no RetryableFailure result
and no lastSequenceNumber exist in the code. -/
theorem c4_amended (now : Nat) (ai : Option AIAnalysis) (s : ServiceState) :
    (createMessage now ai none s).1.messages = s.messages ∧
    (createMessage now ai none s).1.conversations = s.conversations ∧
    (createMessage now ai none s).1.messageCounter = s.messageCounter + 1 ∧
    (createMessage now ai none s).2.isOk = false :=
  ⟨rfl, rfl, rfl, rfl⟩

/-! Claim C5: validation of mandatory fields. -/

/-- C5, counterexample: a payload missing sender identity, native message id
and timestamp is not rejected: createMessage succeeds and the message is
stored, so no MalformedPayload rejection exists. -/
theorem c5_counterexample :
    (createMessage 7 none (some c5_payload) initialState).2.isOk = true ∧
    ((createMessage 7 none (some c5_payload) initialState).1).messages.length = 1 := by
  decide

/-- C5, amended: normalizeMessageData performs no mandatory-field
validation and never fails: every non-null payload — whatever fields it
lacks — is normalized with defaults, accepted by createMessage and stored
under the freshly allocated message id. -/
theorem c5_amended (now : Nat) (ai : Option AIAnalysis) (d : MessageData) (s : ServiceState) :
    ∃ m, (createMessage now ai (some d) s).2 = Except.ok m ∧
      mapGet ((createMessage now ai (some d) s).1).messages
        ("msg_" ++ toString (s.messageCounter + 1)) = some m := by
  refine ⟨_, rfl, ?_⟩
  simp only [createMessage]
  exact mapGet_mapSet_self _ _ _

/-! Claim C6: round-trip of ingest and fetch. -/

/-- C6, counterexample: after ingesting a message and fetching the recent
messages of its conversation, the returned message carries no sequence
number at all (the field is absent), so it cannot carry an assigned
sequenceNumber identical to one from ingestion — no sequence number was
ever assigned. -/
theorem c6_counterexample :
    (getConversationMessages "conv_1" 50
        (createMessage 100 none (some (c6_payload (some "hi") [])) initialState).1).map
      (fun l => l.map (fun m => m.sequenceNumber.isSome)) = Except.ok [false] := by
  decide

/-- C6, amended: the round trip holds for body and attachments: for every
text, attachment list, ingestion clock and categorizer outcome, ingesting
the payload into a fresh store and fetching the recent messages of the
created conversation returns exactly the stored message, whose text and
attachments match the payload; no sequenceNumber is assigned (the field
stays absent). -/
theorem c6_amended (now : Nat) (ai : Option AIAnalysis) (txt : Option String)
    (atts : List Attachment) :
    ((createMessage now ai (some (c6_payload txt atts)) initialState).2).map
        (fun m => (m.id, m.text, m.attachments, m.sequenceNumber))
      = Except.ok ("msg_1", txt.getD "", atts, none) ∧
    (getConversationMessages "conv_1" 50
        ((createMessage now ai (some (c6_payload txt atts)) initialState).1)).map
        (fun l => l.map (fun m => (m.id, m.text, m.attachments, m.sequenceNumber)))
      = Except.ok [("msg_1", txt.getD "", atts, none)] := by
  refine ⟨?_, ?_⟩ <;>
    (simp only [createMessage, c6_payload, normalizeMessageData, updateConversation,
       createConversation, touchState, touchConversation, getConversationMessages,
       sortByTimestamp, insertByTimestamp_nil, mapSet_nil, mapSet_cons, mapGet_nil, mapGet_cons,
       jsOrStr, strFalsy, initialState, Except.map, Option.map, natToString_one, convAppend_one,
       msgAppend_one]
     simp [natToString_one, convAppend_one, msgAppend_one, mapGet_nil, mapGet_cons, mapSet_nil,
       mapSet_cons, insertByTimestamp_nil])

/-! Claim C7: normalization is purely structural. -/

/-- C7, counterexample: the stored UnifiedMessage does contain categorization
and sentiment output: with a categorizer outcome available the record
carries its category urgent, sentiment negative and priority high, with
none it carries the defaults, and the two stored records differ — the
resulting message embeds business-logic output of the categorization
step. -/
theorem c7_counterexample :
    ((createMessage 9 (some c7_analysis) (some c7_payload) initialState).2).map
        (fun m => (m.aiCategory, m.aiSentiment, m.priority))
      = Except.ok ("urgent", "negative", "high") ∧
    ((createMessage 9 none (some c7_payload) initialState).2).map
        (fun m => (m.aiCategory, m.aiSentiment, m.priority))
      = Except.ok ("general", "neutral", "normal") ∧
    ((createMessage 9 (some c7_analysis) (some c7_payload) initialState).2)
      ≠ ((createMessage 9 none (some c7_payload) initialState).2) := by
  refine ⟨by decide, by decide, by decide⟩

/-- C7, amended: normalization and acceptance are independent of
categorization — for every payload and state, a createMessage run succeeds
whatever the categorizer outcome, and everything outside the dedicated ai
output fields of the stored message (stripped by stripAi) is identical
across outcomes, including failure — but the stored record itself does
embed the categorizer output in those ai fields, as the counterexample
shows. -/
theorem c7_amended (now : Nat) (ai1 ai2 : Option AIAnalysis) (d : MessageData)
    (s : ServiceState) :
    ((createMessage now ai1 (some d) s).2).map stripAi
      = ((createMessage now ai2 (some d) s).2).map stripAi ∧
    ((createMessage now ai1 (some d) s).2).isOk = true := by
  constructor
  · simp only [createMessage, Except.map]
    rw [updateConversation_fst, updateConversation_fst]
    dsimp only
    split <;> rfl
  · rfl

/-! Claim C8: fan-out failures and the pipeline result. -/

/-- C8, counterexample: when the real-time emit after the store throws, the
webhook handler answers 500 — reporting failure — although the message was
persisted and remains in the store; the delivery failure does change the
reported pipeline result. -/
theorem c8_counterexample :
    (webhookTelegram 11 none false (tgUpdate 77 (some "hi")) initialState).2.status = 500 ∧
    (mapGet (webhookTelegram 11 none false (tgUpdate 77 (some "hi")) initialState).1.messages
      "msg_1").isSome = true := by
  decide

/-- C8, amended: a failure of the fan-out emit never changes what is stored
— for every body and state the final store is identical whether the emit
succeeds or throws — but it does change the reported result: the handler
answers 200 on a successful emit and 500 on a throwing one, as the two
concrete runs show. -/
theorem c8_amended (now : Nat) (ai : Option AIAnalysis) (b : TelegramUpdate)
    (s : ServiceState) :
    (webhookTelegram now ai true b s).1 = (webhookTelegram now ai false b s).1 ∧
    (webhookTelegram 11 none true (tgUpdate 77 (some "hi")) initialState).2.status = 200 ∧
    (webhookTelegram 11 none false (tgUpdate 77 (some "hi")) initialState).2.status = 500 := by
  refine ⟨?_, by decide, by decide⟩
  unfold webhookTelegram
  split
  · rfl
  · split
    · rfl
    · split <;> rfl

/-! Claim C9: two-run determinism of normalization on content. -/

/-- C9, counterexample: running createMessage twice on the very same payload
(one that, like every webhook payload, carries no conversationId) yields
records that differ beyond id and ingestion time: the first run creates and
assigns conv_1, the second conv_2, so the two records disagree on
conversationId even after masking id and timestamp. -/
theorem c9_counterexample :
    ((createMessage 100 none (some demoPayload) initialState).2).map
        (fun m => m.conversationId) = Except.ok (some "conv_1") ∧
    ((createMessage 200 none (some demoPayload)
        (createMessage 100 none (some demoPayload) initialState).1).2).map
        (fun m => m.conversationId) = Except.ok (some "conv_2") ∧
    ((createMessage 100 none (some demoPayload) initialState).2).map maskIdTime
      ≠ ((createMessage 200 none (some demoPayload)
          (createMessage 100 none (some demoPayload) initialState).1).2).map maskIdTime := by
  refine ⟨by decide, by decide, by decide⟩

/-- C9, amended: for payloads that carry a conversationId (a truthy one),
two runs on the same payload with the same categorizer outcome produce
records that agree on every field except id and the ingestion timestamp:
masking those two fields makes the results equal. For payloads without a
conversationId the records additionally differ in the freshly created
conversationId, as the counterexample shows. -/
theorem c9_amended (now1 now2 : Nat) (ai : Option AIAnalysis) (d : MessageData)
    (s : ServiceState) (h : strFalsy d.conversationId = false) :
    ((createMessage now1 ai (some d) s).2).map maskIdTime
      = ((createMessage now2 ai (some d)
          ((createMessage now1 ai (some d) s).1)).2).map maskIdTime := by
  have hn : strFalsy (normalizeMessageData d).conversationId = false := by
    rw [normalize_conversationId]; exact h
  simp only [createMessage, Except.map]
  rw [updateConversation_fst, updateConversation_fst]
  dsimp only
  simp only [hn, Bool.false_eq_true, ite_false]
  dsimp only [maskIdTime]

/-- C9, witness: the amended statement applied to the same-bytes payload
carrying conversation conv_9, at clocks 100 and 200. -/
theorem c9_witness :
    strFalsy c9_payloadConv.conversationId = false ∧
    ((createMessage 100 none (some c9_payloadConv) initialState).2).map maskIdTime
      = ((createMessage 200 none (some c9_payloadConv)
          ((createMessage 100 none (some c9_payloadConv) initialState).1)).2).map maskIdTime :=
  ⟨by decide, c9_amended 100 200 none c9_payloadConv initialState (by decide)⟩

/-! Claim C10: markConversationAsRead as a frame property. -/

/-- Folding the marking step over the message entries rewrites exactly the
matching unread entries and counts them, whatever the accumulator. -/
theorem markFold (now : Nat) (cid : String) (l : List (String × Message))
    (acc : List (String × Message)) (k : Nat) :
    l.foldl (fun acc2 entry =>
        if entry.2.conversationId == some cid && entry.2.status == "unread" then
          (acc2.1 ++ [(entry.1, { entry.2 with status := "read", readAt := some now })], acc2.2 + 1)
        else (acc2.1 ++ [entry], acc2.2)) (acc, k)
      = (acc ++ l.map (fun e =>
            if e.2.conversationId == some cid && e.2.status == "unread" then
              (e.1, { e.2 with status := "read", readAt := some now })
            else e),
         k + (l.filter (fun e => e.2.conversationId == some cid && e.2.status == "unread")).length) := by
  induction l generalizing acc k with
  | nil => simp
  | cons hd t ih =>
      by_cases hc : (hd.2.conversationId == some cid && hd.2.status == "unread") = true
      · simp only [List.foldl_cons, List.map_cons, List.filter_cons, hc, if_true, ih,
          List.length_cons, List.append_assoc, List.singleton_append]
        rw [Prod.mk.injEq]
        exact ⟨rfl, by omega⟩
      · simp only [List.foldl_cons, List.map_cons, List.filter_cons, hc, if_false,
          Bool.false_eq_true, ite_false, ih, List.append_assoc, List.singleton_append]

/-- C10: for every existing conversation, markConversationAsRead rewrites
exactly those stored messages whose conversationId matches and whose status
is unread — setting status read and stamping readAt, leaving every other
field and every other message untouched, in place — returns their count,
and leaves the conversation store and both counters unchanged (the full
resulting pair is given, so nothing else moved). -/
theorem c10_markConversationAsRead (now : Nat) (cid : String) (s : ServiceState)
    (h : (mapGet s.conversations cid).isSome = true) :
    markConversationAsRead now cid s =
      ({ s with messages := s.messages.map (fun e =>
           if e.2.conversationId == some cid && e.2.status == "unread" then
             (e.1, { e.2 with status := "read", readAt := some now })
           else e) },
       Except.ok ((s.messages.filter
           (fun e => e.2.conversationId == some cid && e.2.status == "unread")).length)) := by
  unfold markConversationAsRead
  rcases hm : mapGet s.conversations cid with _ | c
  · rw [hm] at h; simp at h
  · dsimp only
    rw [markFold]
    simp

/-- C10, witness: the statement applied to a store holding one read and one
unread message of conv_1 and an unread message of conv_2. -/
theorem c10_witness :
    (mapGet c10_state.conversations "conv_1").isSome = true ∧
    markConversationAsRead 50 "conv_1" c10_state =
      ({ c10_state with messages := c10_state.messages.map (fun e =>
           if e.2.conversationId == some "conv_1" && e.2.status == "unread" then
             (e.1, { e.2 with status := "read", readAt := some 50 })
           else e) },
       Except.ok ((c10_state.messages.filter
           (fun e => e.2.conversationId == some "conv_1" && e.2.status == "unread")).length)) :=
  ⟨by decide, c10_markConversationAsRead 50 "conv_1" c10_state (by decide)⟩

end UnifiedInbox
